import Mathlib

/-!
# Verification of the endpoint adapter layer (src/lib/http/endpoint.js)

This file gives a shallow embedding of the result-resolution and
error-translation core of the repository: the functions `finalize`,
`endpoint`, `openRosaEndpoint` and `sendError` of
`src/lib/http/endpoint.js`, together with the small pieces of external
collaborators the claims need.

Modelling conventions:
* JavaScript error values are modelled by the structure `JsErr`, a bag of
  the optional properties the code probes (`forOpenRosa`, `isProblem`,
  `type`, `stack`, the classified-error fields).  A property that is
  absent in JS is `none` / `false` / a default here.
* Promises are modelled as settled outcomes (`promiseResolved` /
  `promiseRejected`): per the spec's concurrency model, non-streaming
  deferred computations run to completion.
* `Problem` constructors (`src/lib/util/problem.js`) and the XML envelope
  builder (`src/lib/outbound/openrosa.js`) are not under `src/`; they are
  modelled from the spec, as marked on each definition.
* The serialization collaborator and the XML envelope builder are opaque
  to this core, so their output is kept symbolic (a constructor carrying
  exactly the arguments the code passes in).
* Effects on the response are modelled as returned action values; the
  effects performed by the streaming branch of `finalize`
  (`request.on('close', ...)` followed by `result.pipe(response)`) are
  modelled by the `streamAct` continuation / by the event trace
  `[closeReg hasEnd, pipeE]`.
-/

/-- Structured detail payloads carried by classified errors.  Only the two
shapes the modelled constructors produce are needed. -/
inductive Details : Type where
  | fieldValue (field : String) (value : Option String)
  | unparseableD (format : String) (rawLength : Nat)
deriving DecidableEq

/-- A classified error ("Problem"): `{httpCode, message, problemCode,
problemDetails}` plus an opaque `code` value that the XML envelope builder
receives.  Modelled from the spec: `src/lib/util/problem.js` is not under
`src/`; the spec describes a ClassifiedError as
`{httpCode, message, problemCode, problemDetails, <classified marker>}`. -/
structure Problem : Type where
  httpCode : Nat
  message : String
  code : String
  problemCode : String
  problemDetails : Option Details
deriving DecidableEq

/-- Modelled from the spec: `Problem.internal.emptyResponse` of the missing
`src/lib/util/problem.js`.  The spec states the absent-result substitute is
an internal-error classification (HTTP 500), not a not-found one. -/
def Problem.internal.emptyResponse : Problem :=
  { httpCode := 500
    message := "The resource returned no data."
    code := "500.1"
    problemCode := "500.1"
    problemDetails := none }

/-- Modelled from the spec: `Problem.user.invalidHeader({ field, value })` of
the missing `src/lib/util/problem.js`.  A UserError (4xx) citing the field
name and the received value. -/
def Problem.user.invalidHeader (field : String) (value : Option String) : Problem :=
  { httpCode := 400
    message := "An expected header field was missing or had an invalid value."
    code := "400.3"
    problemCode := "400.3"
    problemDetails := some (Details.fieldValue field value) }

/-- Modelled from the spec: `Problem.user.unparseable({ format, rawLength })`
of the missing `src/lib/util/problem.js`.  A UserError (4xx family) carrying
the expected format name and the raw byte length. -/
def Problem.user.unparseable (format : String) (rawLength : Nat) : Problem :=
  { httpCode := 400
    message := "The request body could not be parsed."
    code := "400.2"
    problemCode := "400.2"
    problemDetails := some (Details.unparseableD format rawLength) }

/-- A JavaScript error value as probed by `sendError` and the failure
continuations: a bag of the optional properties the code inspects.  A
property that is absent on the JS object is modelled by the field default. -/
structure JsErr : Type where
  forOpenRosa : Option Problem := none
  isProblem : Bool := false
  httpCode : Nat := 0
  message : String := ""
  code : String := ""
  problemCode : String := ""
  problemDetails : Option Details := none
  type : Option String := none
  bodyLength : Nat := 0
  stack : Option String := none
deriving DecidableEq

/-- A `Problem` viewed as the JS error object it is: it carries
`isProblem === true` and its classified fields. -/
def Problem.toErr (p : Problem) : JsErr :=
  { forOpenRosa := none
    isProblem := true
    httpCode := p.httpCode
    message := p.message
    code := p.code
    problemCode := p.problemCode
    problemDetails := p.problemDetails }

/-- The projection of a JS error object onto the classified fields that
`sendError`'s openRosa branch reads off the wrapped object. -/
def JsErr.asProblem (e : JsErr) : Problem :=
  { httpCode := e.httpCode
    message := e.message
    code := e.code
    problemCode := e.problemCode
    problemDetails := e.problemDetails }

/-- The fresh wrapper object `{ forOpenRosa: x }` built by the openRosa
adapter's `next`: it has only the one property. -/
def JsErr.wrapOpenRosa (p : Problem) : JsErr :=
  { forOpenRosa := some p }

/-- A handler result value, classified the way `finalize` probes it
(`src/lib/http/endpoint.js`, lines 13-39).  `V` is the type of plain
result values.  Per the spec's data model, exactly one variant applies to
each instance:
* `nullV` — `null`/`undefined` (`Option.of(maybeResult)` finds nothing);
* `stream hasEnd` — `result.pipe != null`; `hasEnd` records whether
  `typeof result.end === 'function'`;
* `explicitPromiseResolved` / `explicitPromiseRejected` —
  `result.isExplicitPromise === true`, with `result.point()` a promise that
  settles as recorded;
* `promiseResolved` / `promiseRejected` — `result.then != null`, settled as
  recorded (a rejection value may be `null`, hence `Option JsErr`);
* `problemV` — `result.isProblem === true`;
* `plain` — anything else. -/
inductive RVal (V : Type) : Type where
  | nullV : RVal V
  | stream (hasEnd : Bool) : RVal V
  | explicitPromiseResolved (v : RVal V) : RVal V
  | explicitPromiseRejected (e : Option JsErr) : RVal V
  | promiseResolved (v : RVal V) : RVal V
  | promiseRejected (e : Option JsErr) : RVal V
  | problemV (p : Problem) : RVal V
  | plain (v : V) : RVal V

/-- The resolver built by `finalize(success, failure, request, response)`
(`src/lib/http/endpoint.js`, lines 13-39), with its effects reified:
`success`/`failure` are the two continuations, and `streamAct hasEnd`
stands for the effect of the streamable branch (registering the close
listener on the request and piping into the response).  Branches follow
the source order: the `Option.of(...).orElse(emptyResponse)` substitution,
then `pipe`, `isExplicitPromise`, `then`, `isProblem`, else success. -/
def finalize {V α : Type} (success : V → α) (failure : Option JsErr → α)
    (streamAct : Bool → α) : RVal V → α
  | RVal.nullV => failure (some (Problem.toErr Problem.internal.emptyResponse))
  | RVal.stream h => streamAct h
  | RVal.explicitPromiseResolved v => finalize success failure streamAct v
  | RVal.explicitPromiseRejected e => failure e
  | RVal.promiseResolved v => finalize success failure streamAct v
  | RVal.promiseRejected e => failure e
  | RVal.problemV p => failure (some (Problem.toErr p))
  | RVal.plain v => success v

/-- The three possible terminal fates of a resolution. -/
inductive Resolution (V : Type) : Type where
  | value (v : V)
  | fail (e : Option JsErr)
  | piped (hasEnd : Bool)
deriving DecidableEq

/-- What `finalize` ultimately does with a result value, as data. -/
def resolveOutcome {V : Type} (r : RVal V) : Resolution V :=
  finalize (fun v => Resolution.value v) (fun e => Resolution.fail e)
    (fun h => Resolution.piped h) r

/-- Interpret a terminal fate through concrete continuations. -/
def Resolution.interp {V α : Type} (success : V → α) (failure : Option JsErr → α)
    (streamAct : Bool → α) : Resolution V → α
  | Resolution.value v => success v
  | Resolution.fail e => failure e
  | Resolution.piped h => streamAct h

/-- Did the resolution end in the streaming branch? -/
def Resolution.isPiped {V : Type} : Resolution V → Bool
  | Resolution.piped _ => true
  | _ => false

/-- Observable events of a resolution: a success-continuation call, a
failure-continuation call, the registration of the close listener
(recording whether the result has an `end` function), and the pipe call. -/
inductive Event : Type where
  | successE
  | failureE (e : Option JsErr)
  | closeReg (hasEnd : Bool)
  | pipeE
deriving DecidableEq

/-- The event trace of resolving a result: each continuation call emits one
event; the streamable branch registers the close listener and then pipes. -/
def resolveTrace {V : Type} (r : RVal V) : List Event :=
  finalize (fun _ => [Event.successE]) (fun e => [Event.failureE e])
    (fun h => [Event.closeReg h, Event.pipeE]) r

/-- Is this event a success- or failure-continuation invocation? -/
def Event.isSF : Event → Bool
  | Event.successE => true
  | Event.failureE _ => true
  | _ => false

/-- Is this event a terminal action (success call, failure call, or pipe)? -/
def Event.isTerminal : Event → Bool
  | Event.closeReg _ => false
  | _ => true

/-- Number of success/failure continuation invocations in a trace. -/
def countSF (l : List Event) : Nat := (l.filter Event.isSF).length

/-- Number of terminal actions in a trace. -/
def countTerminal (l : List Event) : Nat := (l.filter Event.isTerminal).length

/-- How many times the close listener registered by one `closeReg` event
calls the streamable's `end` per firing of the close event: the listener
body is `if (typeof result.end === 'function') result.end()`. -/
def Event.endCallsPerFiring : Event → Nat
  | Event.closeReg h => if h then 1 else 0
  | _ => 0

/-- Total number of `end` invocations caused by a trace when the request's
close event fires `closeFirings` times: each registered listener runs once
per firing. -/
def endCallsOf (l : List Event) (closeFirings : Nat) : Nat :=
  (l.map (fun e => closeFirings * e.endCallsPerFiring)).sum

/-- Every pipe event in the trace is immediately preceded by the
registration of the close listener. -/
def wellPiped : List Event → Bool
  | [] => true
  | Event.closeReg _ :: Event.pipeE :: rest => wellPiped rest
  | Event.pipeE :: _ => false
  | _ :: rest => wellPiped rest

/-- Does the list start with `G`, `M`, `T` up to ASCII case? -/
def gmtHere : List Char → Bool
  | g :: m :: t :: _ => g.toLower == 'g' && m.toLower == 'm' && t.toLower == 't'
  | _ => false

/-- Left-to-right search for the match of the regex `/GMT.*$/i`: the
leftmost case-insensitive `GMT` whose remainder holds no newline (so that
`.*` can reach `$`); on a match, the match is replaced by the literal
`GMT`, i.e. the remainder of the string is dropped. -/
def replaceGMTAux : List Char → Option (List Char)
  | [] => none
  | c :: cs =>
    if gmtHere (c :: cs) && !((c :: cs).drop 3).contains '\n' then
      some ['G', 'M', 'T']
    else
      match replaceGMTAux cs with
      | some l => some (c :: l)
      | none => none

/-- JavaScript's `s.replace(/GMT.*$/i, 'GMT')`: if the regex matches, the
matched suffix is replaced by `GMT`; otherwise the string is unchanged. -/
def jsReplaceGMT (s : String) : String :=
  match replaceGMTAux s.data with
  | some l => String.mk l
  | none => s

/-- The `next` wrapper defined by `openRosaEndpoint`
(`src/lib/http/endpoint.js`, line 58): a failure value is wrapped as
`{ forOpenRosa: x }` exactly when it is non-null and carries
`isProblem === true`; anything else is forwarded untouched. -/
def orNext : Option JsErr → Option JsErr
  | some e =>
    if e.isProblem then some (JsErr.wrapOpenRosa (JsErr.asProblem e)) else some e
  | none => none

/-- The request headers an openRosa request carries, as read by the
validation gate: `headers['x-openrosa-version']` and `headers.date`. -/
structure ORequest : Type where
  xOpenRosaVersion : Option String
  date : Option String
deriving DecidableEq

/-- A resolved openRosa handler value: an object with an explicit numeric
status `code` and a pre-rendered XML `body` string. -/
structure ORVal : Type where
  code : Nat
  body : String
deriving DecidableEq

/-- The terminal action of the openRosa adapter. -/
inductive ORAct : Type where
  | respond (status : Nat) (body : String)
  | nextRaw (e : Option JsErr)
  | piped (hasEnd : Bool)
deriving DecidableEq

/-- Everything the openRosa adapter does to one request: the response
headers it sets (in call order), the content type it sets, whether the
wrapped handler was invoked, and the terminal action taken. -/
structure OROut : Type where
  headers : List (String × String)
  contentType : String
  handlerInvoked : Bool
  act : ORAct
deriving DecidableEq

/-- `openRosaEndpoint(f)` applied to one request
(`src/lib/http/endpoint.js`, lines 56-80).  `valid o` models
`DateTime.fromHTTP(o).isValid === true` of the external luxon library
(`o = none` standing for a `null` argument), and `now` models
`DateTime.local().toHTTP()`.  The adapter first sets the four mandated
headers and the `text/xml` type, then runs the two pedantry checks, and
only then hands the handler's result to `finalize(success, next)`. -/
def openRosaEndpoint (valid : Option String → Bool) (now : String)
    (f : ORequest → RVal ORVal) (req : ORequest) : OROut :=
  let headers := [("Content-Language", "en"), ("X-OpenRosa-Version", "1.0"),
    ("X-OpenRosa-Accept-Content-Length", "20" ++ "000" ++ "000"), ("Date", now)]
  if req.xOpenRosaVersion ≠ some "1.0" then
    { headers := headers
      contentType := "text/xml"
      handlerInvoked := false
      act := ORAct.nextRaw (orNext (some (Problem.toErr
        (Problem.user.invalidHeader "X-OpenRosa-Version" req.xOpenRosaVersion)))) }
  else
    let patchedDate := req.date.map jsReplaceGMT
    if valid patchedDate ≠ true then
      { headers := headers
        contentType := "text/xml"
        handlerInvoked := false
        act := ORAct.nextRaw (orNext (some (Problem.toErr
          (Problem.user.invalidHeader "Date" req.date)))) }
    else
      { headers := headers
        contentType := "text/xml"
        handlerInvoked := true
        act := finalize (fun v => ORAct.respond v.code v.body)
          (fun e => ORAct.nextRaw (orNext e)) (fun h => ORAct.piped h) (f req) }

/-- Plain JSON-protocol result values; the serialization collaborator is
opaque, so the payload is kept symbolic. -/
def JVal : Type := String

/-- The body written by the JSON endpoint adapter: `serialize(result)` kept
symbolic, since the serialization collaborator is opaque to this core. -/
inductive EpBody : Type where
  | serialized (v : JVal)

/-- The response emitted by the JSON endpoint adapter's success path. -/
structure EpResponse : Type where
  contentType : Option String
  status : Nat
  body : EpBody

/-- The terminal action of the JSON endpoint adapter. -/
inductive EpAct : Type where
  | respond (r : EpResponse)
  | nextCall (e : Option JsErr)
  | piped (hasEnd : Bool)

/-- The resolution step of `endpoint(f)` (`src/lib/http/endpoint.js`, lines
47-55) on an already-computed handler result, given the response's current
`Content-Type` header state `ct0`: on success, the content type is
defaulted to json exactly when none was set, the status is set to 200 and
the serialized payload is written; on failure, the raw value goes to
`next`. -/
def endpointResolve (ct0 : Option String) (r : RVal JVal) : EpAct :=
  finalize
    (fun v => EpAct.respond
      { contentType := if ct0 = none then some "json" else ct0
        status := 200
        body := EpBody.serialized v })
    (fun e => EpAct.nextCall e)
    (fun h => EpAct.piped h) r

/-- The body written by `sendError`: either the opaque XML envelope
(carrying exactly the arguments the code passes to the collaborator:
the problem's `code`, the nature and the message), the structured JSON
rendering of a classified error, or the generic unhandled rendering. -/
inductive SEBody : Type where
  | xmlEnvelope (code : String) (nature : String) (message : String)
  | jsonProblem (message : String) (code : String) (details : Option Details)
  | jsonUnhandled (message : String) (stackLines : Option (List String))
deriving DecidableEq

/-- The response produced by `sendError`, plus whether the raw error was
emitted to the diagnostics sink (`process.stderr`).  `contentType` records
a `response.type(...)` call made inside `sendError` itself (`none` when the
branch makes no such call). -/
structure SEResponse : Type where
  status : Nat
  contentType : Option String
  body : SEBody
  stderrEmitted : Bool
deriving DecidableEq

/-- `error.stack.split('\n').map((x) => x.trim())`, lifted over the
optional stack. -/
def stackLinesOf (stack : Option String) : Option (List String) :=
  stack.map (fun s => (s.splitOn "\n").map String.trim)

/-- The error translator `sendError(error, request, response)`
(`src/lib/http/endpoint.js`, lines 85-114).  Branches in source order:
the own-property check for `forOpenRosa`; then `isProblem === true`; then
`type === 'entity.parse.failed'`, which re-enters `sendError` with a fresh
unparseable Problem; else the generic 500 branch, which also emits the raw
error to the diagnostics sink. -/
def sendError (e : JsErr) : SEResponse :=
  match e.forOpenRosa with
  | some problem =>
    { status := problem.httpCode
      contentType := none
      body := SEBody.xmlEnvelope problem.code "error" problem.message
      stderrEmitted := false }
  | none =>
    if h : e.isProblem = true then
      { status := e.httpCode
        contentType := some "application/json"
        body := SEBody.jsonProblem e.message e.problemCode e.problemDetails
        stderrEmitted := false }
    else if e.type = some "entity.parse.failed" then
      sendError (Problem.toErr (Problem.user.unparseable "json" e.bodyLength))
    else
      { status := 500
        contentType := some "application/json"
        body := SEBody.jsonUnhandled ("Completely unhandled exception: " ++ e.message)
          (stackLinesOf e.stack)
        stderrEmitted := true }
termination_by cond e.isProblem 0 1
decreasing_by
  rw [Bool.not_eq_true] at h
  simp [h, Problem.toErr]

/-! ## Basic lemmas about the resolver -/

/-- `finalize` factors through its terminal fate: running the resolver with
any continuations is the same as computing the outcome and interpreting it. -/
theorem finalize_eq_interp {V : Type} (r : RVal V) :
    ∀ {α : Type} (s : V → α) (f : Option JsErr → α) (p : Bool → α),
      finalize s f p r = Resolution.interp s f p (resolveOutcome r) := by
  induction r with
  | nullV => intro α s f p; rfl
  | stream h => intro α s f p; rfl
  | explicitPromiseResolved v ih =>
      intro α s f p
      simp only [finalize, resolveOutcome] at *
      exact ih s f p
  | explicitPromiseRejected e => intro α s f p; rfl
  | promiseResolved v ih =>
      intro α s f p
      simp only [finalize, resolveOutcome] at *
      exact ih s f p
  | promiseRejected e => intro α s f p; rfl
  | problemV p' => intro α s f p; rfl
  | plain v => intro α s f p; rfl

/-- The event trace of a resolution is determined by its terminal fate. -/
theorem resolveTrace_eq {V : Type} (r : RVal V) :
    resolveTrace r = Resolution.interp (fun _ => [Event.successE])
      (fun e => [Event.failureE e]) (fun h => [Event.closeReg h, Event.pipeE])
      (resolveOutcome r) :=
  finalize_eq_interp r _ _ _

/-- Round trip: viewing a `Problem` as a JS error object and projecting the
classified fields back is the identity. -/
theorem asProblem_toErr (p : Problem) : JsErr.asProblem (Problem.toErr p) = p := rfl

/-- The openRosa `next` wrapper on a `Problem` value wraps it. -/
theorem orNext_toErr (p : Problem) :
    orNext (some (Problem.toErr p)) = some (JsErr.wrapOpenRosa p) := rfl

/-! ## Lemmas about the error translator -/

/-- Branch 1 of `sendError`: a value carrying the `forOpenRosa` property is
rendered as the XML envelope of the wrapped problem, whatever its other
properties are. -/
theorem sendError_forOpenRosa (e : JsErr) (p : Problem)
    (h : e.forOpenRosa = some p) :
    sendError e = { status := p.httpCode
                    contentType := none
                    body := SEBody.xmlEnvelope p.code "error" p.message
                    stderrEmitted := false } := by
  rw [sendError.eq_def, h]

/-- Branch 2 of `sendError`: a classified error without the discriminant is
rendered as the structured JSON object. -/
theorem sendError_problem (e : JsErr) (h1 : e.forOpenRosa = none)
    (h2 : e.isProblem = true) :
    sendError e = { status := e.httpCode
                    contentType := some "application/json"
                    body := SEBody.jsonProblem e.message e.problemCode e.problemDetails
                    stderrEmitted := false } := by
  rw [sendError.eq_def, h1]
  simp [h2]

/-- Branch 3 of `sendError` re-enters the translator with a freshly
synthesized unparseable Problem carrying the format name and the raw body
byte length. -/
theorem sendError_parseFailed (e : JsErr) (h1 : e.forOpenRosa = none)
    (h2 : e.isProblem = false) (h3 : e.type = some "entity.parse.failed") :
    sendError e = sendError (Problem.toErr (Problem.user.unparseable "json" e.bodyLength)) := by
  rw [sendError.eq_def, h1]
  simp [h2, h3]

/-- Branch 4 of `sendError`: everything else gets the generic 500 body and
an emission to the diagnostics sink. -/
theorem sendError_other (e : JsErr) (h1 : e.forOpenRosa = none)
    (h2 : e.isProblem = false) (h3 : e.type ≠ some "entity.parse.failed") :
    sendError e = { status := 500
                    contentType := some "application/json"
                    body := SEBody.jsonUnhandled
                      ("Completely unhandled exception: " ++ e.message)
                      (stackLinesOf e.stack)
                    stderrEmitted := true } := by
  rw [sendError.eq_def, h1]
  simp [h2, h3]

/-- Evaluating `sendError` on a bare `Problem` hits branch 2. -/
theorem sendError_toErr (p : Problem) :
    sendError (Problem.toErr p) =
      { status := p.httpCode
        contentType := some "application/json"
        body := SEBody.jsonProblem p.message p.problemCode p.problemDetails
        stderrEmitted := false } :=
  sendError_problem (Problem.toErr p) rfl rfl

/-! ## Claim theorems -/

/-- C1 (counterexample): for a streamable handler result, the resolver
invokes neither the success continuation nor the failure continuation — it
registers the close listener and pipes — so the claim that every result
variant invokes success or failure exactly once is false. -/
theorem claim1_counterexample :
    resolveTrace (RVal.stream false : RVal Unit) = [Event.closeReg false, Event.pipeE] ∧
    countSF (resolveTrace (RVal.stream false : RVal Unit)) = 0 :=
  ⟨rfl, rfl⟩

/-- C1 (amended): for every handler result value passed to the resolver,
resolution performs exactly one terminal action — a success-continuation
call, a failure-continuation call, or piping the streamable into the
response; success and failure are together invoked at most once, exactly
once when the result does not resolve to a streamable, and zero times
(with the pipe as the sole terminal action) when it does. -/
theorem claim1_exactly_one_terminal (V : Type) (r : RVal V) :
    countTerminal (resolveTrace r) = 1 ∧
    countSF (resolveTrace r) ≤ 1 ∧
    ((resolveOutcome r).isPiped = false → countSF (resolveTrace r) = 1) ∧
    ((resolveOutcome r).isPiped = true → countSF (resolveTrace r) = 0) := by
  rw [resolveTrace_eq]
  cases resolveOutcome r with
  | value v =>
      simp [Resolution.interp, Resolution.isPiped, countSF, countTerminal,
        Event.isSF, Event.isTerminal, List.filter]
  | fail e =>
      simp [Resolution.interp, Resolution.isPiped, countSF, countTerminal,
        Event.isSF, Event.isTerminal, List.filter]
  | piped h =>
      simp [Resolution.interp, Resolution.isPiped, countSF, countTerminal,
        Event.isSF, Event.isTerminal, List.filter]

/-- C1 (witness): the amended theorem at a concrete promise-of-a-value
result. -/
theorem claim1_witness :
    countTerminal (resolveTrace (RVal.promiseResolved (RVal.plain 3) : RVal Nat)) = 1 ∧
    countSF (resolveTrace (RVal.promiseResolved (RVal.plain 3) : RVal Nat)) ≤ 1 ∧
    ((resolveOutcome (RVal.promiseResolved (RVal.plain 3) : RVal Nat)).isPiped = false →
      countSF (resolveTrace (RVal.promiseResolved (RVal.plain 3) : RVal Nat)) = 1) ∧
    ((resolveOutcome (RVal.promiseResolved (RVal.plain 3) : RVal Nat)).isPiped = true →
      countSF (resolveTrace (RVal.promiseResolved (RVal.plain 3) : RVal Nat)) = 0) :=
  claim1_exactly_one_terminal Nat (RVal.promiseResolved (RVal.plain 3))

/-- C4: for every result value, if the request's close event fires at most
once (the HTTP runtime's guarantee), the streamable's release capability
is invoked at most once — once when the client closes with an `end`
function present, zero times otherwise — and in every trace the close
listener registration immediately precedes the pipe call, so the listener
is registered before piping begins. -/
theorem claim4_end_at_most_once (V : Type) (r : RVal V) (closeFirings : Nat)
    (h : closeFirings ≤ 1) :
    endCallsOf (resolveTrace r) closeFirings ≤ 1 ∧
    wellPiped (resolveTrace r) = true := by
  rw [resolveTrace_eq]
  cases resolveOutcome r with
  | value v =>
      simp [Resolution.interp, endCallsOf, wellPiped, Event.endCallsPerFiring]
  | fail e =>
      simp [Resolution.interp, endCallsOf, wellPiped, Event.endCallsPerFiring]
  | piped hasEnd =>
      cases hasEnd <;>
        simp [Resolution.interp, endCallsOf, wellPiped, Event.endCallsPerFiring, h]

/-- C4 (witness): a streamable with a release capability, close fired
once. -/
theorem claim4_witness :
    (1 : Nat) ≤ 1 ∧
    (endCallsOf (resolveTrace (RVal.stream true : RVal Unit)) 1 ≤ 1 ∧
      wellPiped (resolveTrace (RVal.stream true : RVal Unit)) = true) :=
  ⟨by decide, claim4_end_at_most_once Unit (RVal.stream true) 1 (by decide)⟩

/-- C5: resolving an absent result (null/undefined) substitutes the fixed
"empty response" classified error — an internal-error classification (HTTP
500), not a not-found (404) one — and invokes the failure continuation
exactly once, never success. -/
theorem claim5_absent_result (V : Type) :
    resolveTrace (RVal.nullV : RVal V) =
      [Event.failureE (some (Problem.toErr Problem.internal.emptyResponse))] ∧
    (Problem.toErr Problem.internal.emptyResponse).isProblem = true ∧
    Problem.internal.emptyResponse.httpCode = 500 ∧
    Problem.internal.emptyResponse.httpCode ≠ 404 ∧
    Event.successE ∉ resolveTrace (RVal.nullV : RVal V) := by
  refine ⟨rfl, rfl, rfl, by decide, ?_⟩
  simp [resolveTrace, finalize]

/-- C5 (witness): the theorem at the unit value type. -/
theorem claim5_witness :
    resolveTrace (RVal.nullV : RVal Unit) =
      [Event.failureE (some (Problem.toErr Problem.internal.emptyResponse))] ∧
    (Problem.toErr Problem.internal.emptyResponse).isProblem = true ∧
    Problem.internal.emptyResponse.httpCode = 500 ∧
    Problem.internal.emptyResponse.httpCode ≠ 404 ∧
    Event.successE ∉ resolveTrace (RVal.nullV : RVal Unit) :=
  claim5_absent_result Unit

/-- C2: `sendError` checks the `forOpenRosa` discriminant before the
classified marker: any value carrying `forOpenRosa` (whatever its
`isProblem`) is rendered with the wrapped problem's HTTP code and an XML
error envelope with nature "error" and the wrapped problem's message; a
value without the discriminant but with `isProblem === true` is rendered
with its own HTTP code and the structured JSON object
`{message, code: problemCode, details: problemDetails}`. -/
theorem claim2_sendError_branches (e : JsErr) (p : Problem) :
    (e.forOpenRosa = some p →
      sendError e = { status := p.httpCode
                      contentType := none
                      body := SEBody.xmlEnvelope p.code "error" p.message
                      stderrEmitted := false }) ∧
    (e.forOpenRosa = none → e.isProblem = true →
      sendError e = { status := e.httpCode
                      contentType := some "application/json"
                      body := SEBody.jsonProblem e.message e.problemCode e.problemDetails
                      stderrEmitted := false }) :=
  ⟨fun h => sendError_forOpenRosa e p h, fun h1 h2 => sendError_problem e h1 h2⟩

/-- C2 (witness): both branches at concrete inputs — a wrapped problem
(whose carrier even has `isProblem := true`, showing the discriminant is
checked first) and a bare classified error. -/
theorem claim2_witness :
    (({ forOpenRosa := some ⟨409, "conflict", "c", "409.1", none⟩, isProblem := true } : JsErr).forOpenRosa
        = some (⟨409, "conflict", "c", "409.1", none⟩ : Problem) ∧
      sendError ({ forOpenRosa := some ⟨409, "conflict", "c", "409.1", none⟩, isProblem := true } : JsErr)
        = { status := 409
            contentType := none
            body := SEBody.xmlEnvelope "c" "error" "conflict"
            stderrEmitted := false }) ∧
    ((Problem.toErr ⟨409, "conflict", "c", "409.1", none⟩).forOpenRosa = none ∧
      (Problem.toErr ⟨409, "conflict", "c", "409.1", none⟩).isProblem = true ∧
      sendError (Problem.toErr ⟨409, "conflict", "c", "409.1", none⟩)
        = { status := 409
            contentType := some "application/json"
            body := SEBody.jsonProblem "conflict" "409.1" none
            stderrEmitted := false }) :=
  ⟨⟨rfl, (claim2_sendError_branches
      ({ forOpenRosa := some ⟨409, "conflict", "c", "409.1", none⟩, isProblem := true } : JsErr)
      ⟨409, "conflict", "c", "409.1", none⟩).1 rfl⟩,
   ⟨rfl, rfl, (claim2_sendError_branches
      (Problem.toErr ⟨409, "conflict", "c", "409.1", none⟩)
      ⟨409, "conflict", "c", "409.1", none⟩).2 rfl rfl⟩⟩

/-- C8 (counterexample): the generic branch's message is prefixed with
"Completely unhandled exception: ", not "unhandled exception: " as the
claim states, seen at the concrete error `{ message: 'boom' }`. -/
theorem claim8_counterexample :
    sendError ({ message := "boom" } : JsErr) =
      { status := 500
        contentType := some "application/json"
        body := SEBody.jsonUnhandled "Completely unhandled exception: boom" none
        stderrEmitted := true } ∧
    "Completely unhandled exception: boom" ≠ "unhandled exception: " ++ "boom" := by
  constructor
  · rw [sendError_other ({ message := "boom" } : JsErr) rfl rfl (by decide)]
    decide
  · decide

/-- C8 (amended): a propagated error carrying none of the three markers
yields status 500 and a JSON body whose message is
"Completely unhandled exception: " concatenated with the original message,
with details containing the stack split on newlines into trimmed lines
when a stack is available (and empty details otherwise), and the raw error
is emitted to the diagnostics sink. -/
theorem claim8_unhandled (e : JsErr) (h1 : e.forOpenRosa = none)
    (h2 : e.isProblem = false) (h3 : e.type ≠ some "entity.parse.failed") :
    sendError e = { status := 500
                    contentType := some "application/json"
                    body := SEBody.jsonUnhandled
                      ("Completely unhandled exception: " ++ e.message)
                      (stackLinesOf e.stack)
                    stderrEmitted := true } ∧
    stackLinesOf e.stack = e.stack.map (fun s => (s.splitOn "\n").map String.trim) :=
  ⟨sendError_other e h1 h2 h3, rfl⟩

/-- C8 (witness): the amended theorem at a concrete fault with a stack. -/
theorem claim8_witness :
    (({ message := "x", stack := some " at a \n  at b" } : JsErr).forOpenRosa = none) ∧
    (({ message := "x", stack := some " at a \n  at b" } : JsErr).isProblem = false) ∧
    (({ message := "x", stack := some " at a \n  at b" } : JsErr).type ≠ some "entity.parse.failed") ∧
    (sendError ({ message := "x", stack := some " at a \n  at b" } : JsErr) =
      { status := 500
        contentType := some "application/json"
        body := SEBody.jsonUnhandled
          ("Completely unhandled exception: " ++ "x")
          (stackLinesOf (some " at a \n  at b"))
        stderrEmitted := true }) :=
  ⟨rfl, rfl, by decide,
    (claim8_unhandled ({ message := "x", stack := some " at a \n  at b" } : JsErr)
      rfl rfl (by decide)).1⟩

/-- C9: an error carrying the body-decoding-failure marker re-enters
`sendError` with a fresh unparseable classified error carrying the format
name "json" and the raw body byte length; the recursion terminates at the
classified-error branch, yielding a 4xx structured JSON response — never
the generic 500 branch (no diagnostics emission, status below 500). -/
theorem claim9_parse_failed (e : JsErr) (h1 : e.forOpenRosa = none)
    (h2 : e.isProblem = false) (h3 : e.type = some "entity.parse.failed") :
    sendError e = sendError (Problem.toErr (Problem.user.unparseable "json" e.bodyLength)) ∧
    sendError e = { status := (Problem.user.unparseable "json" e.bodyLength).httpCode
                    contentType := some "application/json"
                    body := SEBody.jsonProblem
                      (Problem.user.unparseable "json" e.bodyLength).message
                      (Problem.user.unparseable "json" e.bodyLength).problemCode
                      (Problem.user.unparseable "json" e.bodyLength).problemDetails
                    stderrEmitted := false } ∧
    (Problem.user.unparseable "json" e.bodyLength).problemDetails =
      some (Details.unparseableD "json" e.bodyLength) ∧
    400 ≤ (sendError e).status ∧ (sendError e).status < 500 ∧
    (sendError e).stderrEmitted = false := by
  have hre := sendError_parseFailed e h1 h2 h3
  have hp := sendError_toErr (Problem.user.unparseable "json" e.bodyLength)
  refine ⟨hre, hre.trans hp, rfl, ?_, ?_, ?_⟩ <;>
    rw [hre.trans hp] <;> simp [Problem.user.unparseable]

/-- C9 (witness): the spec's own example, `{type: 'entity.parse.failed',
body: {length: 42}}`. -/
theorem claim9_witness :
    (({ type := some "entity.parse.failed", bodyLength := 42 } : JsErr).forOpenRosa = none) ∧
    (({ type := some "entity.parse.failed", bodyLength := 42 } : JsErr).isProblem = false) ∧
    (({ type := some "entity.parse.failed", bodyLength := 42 } : JsErr).type = some "entity.parse.failed") ∧
    (sendError ({ type := some "entity.parse.failed", bodyLength := 42 } : JsErr) =
      sendError (Problem.toErr (Problem.user.unparseable "json" 42)) ∧
      400 ≤ (sendError ({ type := some "entity.parse.failed", bodyLength := 42 } : JsErr)).status ∧
      (sendError ({ type := some "entity.parse.failed", bodyLength := 42 } : JsErr)).status < 500) :=
  ⟨rfl, rfl, rfl,
    (claim9_parse_failed ({ type := some "entity.parse.failed", bodyLength := 42 } : JsErr)
        rfl rfl rfl).1,
    (claim9_parse_failed ({ type := some "entity.parse.failed", bodyLength := 42 } : JsErr)
        rfl rfl rfl).2.2.2.1,
    (claim9_parse_failed ({ type := some "entity.parse.failed", bodyLength := 42 } : JsErr)
        rfl rfl rfl).2.2.2.2.1⟩

/-- C10 (counterexample): two non-Problem failure values are forwarded
unwrapped by the openRosa adapter's `next`, yet the translator does not
render them as the generic JSON 500 body: a body-decoding failure is
rendered through the 4xx unparseable classified path, and a value that
itself carries a `forOpenRosa` property is rendered as an XML envelope. -/
theorem claim10_counterexample :
    (orNext (some ({ type := some "entity.parse.failed", bodyLength := 7 } : JsErr)) =
        some ({ type := some "entity.parse.failed", bodyLength := 7 } : JsErr) ∧
      (sendError ({ type := some "entity.parse.failed", bodyLength := 7 } : JsErr)).status = 400 ∧
      (sendError ({ type := some "entity.parse.failed", bodyLength := 7 } : JsErr)).status ≠ 500 ∧
      (sendError ({ type := some "entity.parse.failed", bodyLength := 7 } : JsErr)).body =
        SEBody.jsonProblem "The request body could not be parsed." "400.2"
          (some (Details.unparseableD "json" 7))) ∧
    (orNext (some ({ forOpenRosa := some ⟨401, "m", "c", "pc", none⟩ } : JsErr)) =
        some ({ forOpenRosa := some ⟨401, "m", "c", "pc", none⟩ } : JsErr) ∧
      (sendError ({ forOpenRosa := some ⟨401, "m", "c", "pc", none⟩ } : JsErr)).body =
        SEBody.xmlEnvelope "c" "error" "m") := by
  have h1 := sendError_parseFailed
    ({ type := some "entity.parse.failed", bodyLength := 7 } : JsErr) rfl rfl rfl
  have h2 := sendError_toErr (Problem.user.unparseable "json" 7)
  have h3 := sendError_forOpenRosa ({ forOpenRosa := some ⟨401, "m", "c", "pc", none⟩ } : JsErr)
    ⟨401, "m", "c", "pc", none⟩ rfl
  refine ⟨⟨rfl, ?_, ?_, ?_⟩, rfl, ?_⟩
  · rw [h1.trans h2]; decide
  · rw [h1.trans h2]; decide
  · rw [h1.trans h2]; decide
  · rw [h3]

/-- C10 (amended): a failure value leaving the openRosa adapter is wrapped
as `{forOpenRosa: x}` exactly when it is non-null and carries
`isProblem === true`; any other failure value is forwarded unwrapped, and
when the forwarded value carries neither a `forOpenRosa` property nor the
body-decoding-failure marker, the error translator renders it as the
generic JSON 500 body rather than an XML envelope, even though the request
arrived on the XML protocol. -/
theorem claim10_wrap_condition (e : JsErr) :
    orNext none = none ∧
    (e.isProblem = true →
      orNext (some e) = some (JsErr.wrapOpenRosa (JsErr.asProblem e))) ∧
    (e.isProblem = false → orNext (some e) = some e) ∧
    (e.isProblem = false → e.forOpenRosa = none →
      e.type ≠ some "entity.parse.failed" →
      sendError e = { status := 500
                      contentType := some "application/json"
                      body := SEBody.jsonUnhandled
                        ("Completely unhandled exception: " ++ e.message)
                        (stackLinesOf e.stack)
                      stderrEmitted := true }) := by
  refine ⟨rfl, fun h => ?_, fun h => ?_, fun h h1 h3 => sendError_other e h1 h h3⟩
  · simp [orNext, h]
  · simp [orNext, h]

/-- C10 (witness): a plain runtime fault is forwarded unwrapped and
rendered by the generic 500 branch. -/
theorem claim10_witness :
    orNext none = none ∧
    (({ message := "w" } : JsErr).isProblem = false) ∧
    orNext (some ({ message := "w" } : JsErr)) = some ({ message := "w" } : JsErr) ∧
    (({ message := "w" } : JsErr).forOpenRosa = none) ∧
    (({ message := "w" } : JsErr).type ≠ some "entity.parse.failed") ∧
    sendError ({ message := "w" } : JsErr) =
      { status := 500
        contentType := some "application/json"
        body := SEBody.jsonUnhandled ("Completely unhandled exception: " ++ "w")
          (stackLinesOf none)
        stderrEmitted := true } :=
  ⟨rfl, rfl,
    (claim10_wrap_condition ({ message := "w" } : JsErr)).2.2.1 rfl,
    rfl, by decide,
    (claim10_wrap_condition ({ message := "w" } : JsErr)).2.2.2 rfl rfl (by decide)⟩

/-- C6: for every openRosa request — whatever the validation outcome and
the handler — the adapter sets the four mandated response headers, in
order: `Content-Language: en`, `X-OpenRosa-Version: 1.0`,
`X-OpenRosa-Accept-Content-Length: 20000000`, and `Date` as the current
HTTP-date. -/
theorem claim6_mandated_headers (valid : Option String → Bool) (now : String)
    (f : ORequest → RVal ORVal) (req : ORequest) :
    (openRosaEndpoint valid now f req).headers =
      [("Content-Language", "en"), ("X-OpenRosa-Version", "1.0"),
       ("X-OpenRosa-Accept-Content-Length", "20000000"), ("Date", now)] := by
  have hlen : ("20" ++ "000" ++ "000" : String) = "20000000" := by decide
  simp only [openRosaEndpoint]
  split_ifs <;> rw [hlen]

/-- C6 (witness): the headers on a concrete rejected request (missing
version header), showing they are set even for rejected requests. -/
theorem claim6_witness :
    (openRosaEndpoint (fun _ => false) "Tue, 01 Jan 2030 00:00:00 GMT"
      (fun _ => RVal.nullV) ⟨none, none⟩).headers =
      [("Content-Language", "en"), ("X-OpenRosa-Version", "1.0"),
       ("X-OpenRosa-Accept-Content-Length", "20000000"),
       ("Date", "Tue, 01 Jan 2030 00:00:00 GMT")] :=
  claim6_mandated_headers (fun _ => false) "Tue, 01 Jan 2030 00:00:00 GMT"
    (fun _ => RVal.nullV) ⟨none, none⟩

/-- The date munge on the spec's example of a non-compliant ODK Collect
date: the trailing `GMT+0500` suffix is rewritten down to `GMT`. -/
theorem jsReplaceGMT_example :
    jsReplaceGMT "Tue, 01 Jan 2030 00:00:00 GMT+0500" =
      "Tue, 01 Jan 2030 00:00:00 GMT" := by decide

/-- C3: the openRosa validation gate runs before the handler and
short-circuits on the first violation.  If the `x-openrosa-version`
request header is not exactly "1.0" (including when missing), the request
is rejected with the invalid-header UserError citing field
`X-OpenRosa-Version` and the received value, and the handler is never
invoked.  Otherwise, if the `Date` header — after the `GMT`-suffix
rewrite `jsReplaceGMT` — does not parse as a valid date (`valid` models
luxon's `DateTime.fromHTTP(...).isValid`, with `valid none = false` for a
missing header), the request is rejected with the UserError citing field
`Date` and the received value, and the handler is never invoked. -/
theorem claim3_validation_gate (valid : Option String → Bool)
    (hnull : valid none = false) (now : String)
    (f : ORequest → RVal ORVal) (req : ORequest) :
    (req.xOpenRosaVersion ≠ some "1.0" →
      (openRosaEndpoint valid now f req).handlerInvoked = false ∧
      (openRosaEndpoint valid now f req).act = ORAct.nextRaw (some (JsErr.wrapOpenRosa
        (Problem.user.invalidHeader "X-OpenRosa-Version" req.xOpenRosaVersion)))) ∧
    (req.xOpenRosaVersion = some "1.0" →
      valid (req.date.map jsReplaceGMT) = false →
      (openRosaEndpoint valid now f req).handlerInvoked = false ∧
      (openRosaEndpoint valid now f req).act = ORAct.nextRaw (some (JsErr.wrapOpenRosa
        (Problem.user.invalidHeader "Date" req.date)))) ∧
    (req.xOpenRosaVersion = some "1.0" → req.date = none →
      (openRosaEndpoint valid now f req).handlerInvoked = false ∧
      (openRosaEndpoint valid now f req).act = ORAct.nextRaw (some (JsErr.wrapOpenRosa
        (Problem.user.invalidHeader "Date" none)))) ∧
    (Problem.user.invalidHeader "X-OpenRosa-Version" req.xOpenRosaVersion).problemDetails =
      some (Details.fieldValue "X-OpenRosa-Version" req.xOpenRosaVersion) ∧
    (Problem.user.invalidHeader "Date" req.date).problemDetails =
      some (Details.fieldValue "Date" req.date) ∧
    400 ≤ (Problem.user.invalidHeader "Date" req.date).httpCode ∧
    (Problem.user.invalidHeader "Date" req.date).httpCode < 500 := by
  refine ⟨fun h => ?_, fun h1 h2 => ?_, fun h1 h3 => ?_, rfl, rfl,
    by simp [Problem.user.invalidHeader], by simp [Problem.user.invalidHeader]⟩
  · constructor <;> simp [openRosaEndpoint, h, orNext_toErr]
  · constructor <;> simp [openRosaEndpoint, h1, h2, orNext_toErr]
  · constructor <;> simp [openRosaEndpoint, h1, h3, hnull, orNext_toErr]

/-- C3 (witness): a request with both headers missing is rejected on the
version check without invoking the handler. -/
theorem claim3_witness :
    (((fun _ => false) : Option String → Bool) none = false) ∧
    ((⟨none, none⟩ : ORequest).xOpenRosaVersion ≠ some "1.0") ∧
    ((openRosaEndpoint (fun _ => false) "now" (fun _ => RVal.nullV)
        ⟨none, none⟩).handlerInvoked = false ∧
      (openRosaEndpoint (fun _ => false) "now" (fun _ => RVal.nullV) ⟨none, none⟩).act =
        ORAct.nextRaw (some (JsErr.wrapOpenRosa
          (Problem.user.invalidHeader "X-OpenRosa-Version" none)))) :=
  ⟨rfl, by decide,
    (claim3_validation_gate (fun _ => false) rfl "now" (fun _ => RVal.nullV)
      ⟨none, none⟩).1 (by decide)⟩

/-- C7: a handler result that resolves to a plain value makes the JSON
endpoint adapter respond with status 200, the serialization of the
resolved value as body, and the content type defaulted to json exactly
when none was previously set. -/
theorem claim7_json_success (ct0 : Option String) (r : RVal JVal) (v : JVal)
    (h : resolveOutcome r = Resolution.value v) :
    endpointResolve ct0 r = EpAct.respond
      { contentType := if ct0 = none then some "json" else ct0
        status := 200
        body := EpBody.serialized v } ∧
    (ct0 = none → (if ct0 = none then some "json" else ct0) = some "json") ∧
    (ct0 ≠ none → (if ct0 = none then some "json" else ct0) = ct0) := by
  refine ⟨?_, fun hn => by simp [hn], fun hn => by simp [hn]⟩
  rw [endpointResolve, finalize_eq_interp, h]
  rfl

/-- C7 (witness): a promise resolving to the plain value "k" with no
content type previously set. -/
theorem claim7_witness :
    resolveOutcome (RVal.promiseResolved (RVal.plain ("k" : JVal))) =
      Resolution.value ("k" : JVal) ∧
    endpointResolve none (RVal.promiseResolved (RVal.plain ("k" : JVal))) = EpAct.respond
      { contentType := if (none : Option String) = none then some "json" else none
        status := 200
        body := EpBody.serialized ("k" : JVal) } :=
  ⟨rfl, (claim7_json_success none (RVal.promiseResolved (RVal.plain ("k" : JVal)))
    ("k" : JVal) rfl).1⟩
